import Mathlib

/-
Shallow embedding of the SpatiaLynk backend query-resolution and
multi-level selection engine (src/app of the repository):
  - prompt_parser.py : normalisation, location extraction, category extraction
  - recommender.py   : CATEGORY_MAP, BORING_CATEGORIES, filter_exploration_df,
                       diversified_sample
  - multilevel.py    : weighted_sample, group helpers, multilevel_recommend
  - explain.py       : explain_level, explain_categories

Modelling conventions:
  - pandas DataFrame rows are lists of (index, POI) pairs; filtering keeps
    the original index, as pandas does.
  - numpy randomness is modelled by an explicit pick oracle (Nat to Nat):
    each draw takes the oracle value modulo the pool size.  A universally
    quantified oracle covers every outcome numpy can produce; an explicit
    oracle exhibits one concrete reachable outcome.
  - calls that raise in Python (ValueError from astype or np.random.choice)
    are modelled as Option results, none standing for the raised exception.
  - queries and catalog text are ASCII, so str.lower and friends are
    modelled per ASCII character.
-/

namespace SpatiaLynk

-- ===================================================================
-- Characters and strings
-- ===================================================================

/-- Models Python str.lower for one ASCII character. -/
def lowerChar (c : Char) : Char :=
  if 'A' ≤ c && c ≤ 'Z' then Char.ofNat (c.toNat + 32) else c

/-- Models Python str.upper for one ASCII character. -/
def upperChar (c : Char) : Char :=
  if 'a' ≤ c && c ≤ 'z' then Char.ofNat (c.toNat - 32) else c

/-- Lowercase a whole string, as str.lower does. -/
def lowerStr (s : String) : String := ⟨s.data.map lowerChar⟩

/-- Uppercase a whole string, as str.upper does. -/
def upperStr (s : String) : String := ⟨s.data.map upperChar⟩

/-- True when the first list is an initial segment of the second. -/
def leadsWith : List Char → List Char → Bool
  | [], _ => true
  | _ :: _, [] => false
  | a :: as, b :: bs => a == b && leadsWith as bs

/-- True when needle occurs contiguously inside hay. -/
def hasSub (needle : List Char) : List Char → Bool
  | [] => leadsWith needle []
  | c :: t => leadsWith needle (c :: t) || hasSub needle t

/-- Models the Python expression needle in hay on strings. -/
def strIn (needle hay : String) : Bool := hasSub needle.data hay.data

/-- Drop whitespace from both ends, as str.strip does. -/
def stripChars (l : List Char) : List Char :=
  ((l.dropWhile Char.isWhitespace).reverse.dropWhile Char.isWhitespace).reverse

/-- Collapse every whitespace run to one space; the flag records whether
the previous character was whitespace.  Models re.sub of a whitespace run
by a single space. -/
def squeeze (prevWs : Bool) : List Char → List Char
  | [] => []
  | c :: t =>
    if c.isWhitespace then
      (if prevWs then [] else [' ']) ++ squeeze true t
    else c :: squeeze false t

/-- Models the helper in prompt_parser.py: strip, lowercase, then replace
every whitespace run by a single space. -/
def normalise (s : String) : String :=
  ⟨squeeze false (stripChars (s.data.map lowerChar))⟩

/-- Models Python str.split with no arguments: split on whitespace runs and
drop empty pieces.  The accumulator holds the current word reversed. -/
def splitWsAux (cur : List Char) : List Char → List (List Char)
  | [] => if cur.isEmpty then [] else [cur.reverse]
  | c :: t =>
    if c.isWhitespace then
      (if cur.isEmpty then [] else [cur.reverse]) ++ splitWsAux [] t
    else splitWsAux (c :: cur) t

/-- Models Python str.split with no arguments. -/
def splitWs (s : String) : List String := (splitWsAux [] s.data).map String.mk

/-- Models the regex class of word characters for ASCII text. -/
def isWordChar (c : Char) : Bool := c.isAlphanum || c == '_'

/-- True when key starts here with a word boundary on both sides; prev is
the character just before this position, if any. -/
def boundedHere (key : List Char) (prev : Option Char) (hay : List Char) : Bool :=
  (match prev with
   | none => true
   | some c => !isWordChar c) &&
  leadsWith key hay &&
  (match hay.drop key.length with
   | [] => true
   | c :: _ => !isWordChar c)

/-- Scan of every position for a word-bounded occurrence of key. -/
def wbSearch (key : List Char) (prev : Option Char) : List Char → Bool
  | [] => boundedHere key prev []
  | c :: t => boundedHere key prev (c :: t) || wbSearch key (some c) t

/-- Models re.search of a word-bounded key inside the normalised query. -/
def reWordSearch (key q : String) : Bool := wbSearch key.data none q.data

/-- Models sorted on a list of strings (ascending). -/
def sortedStrs (l : List String) : List String :=
  List.insertionSort (· ≤ ·) l

/-- Models Python sorted over a set built from a list of strings. -/
def sortedUnique (l : List String) : List String := sortedStrs l.dedup

-- ===================================================================
-- Data model: POI rows (database.py)
-- ===================================================================

/-- A popularity cell of the catalog.  The real constructor covers floats
and numeric strings (both survive float conversion); text covers any value
on which float conversion raises; missing is a NaN cell. -/
inductive PopVal where
  | real (q : ℚ)
  | text
  | missing
deriving DecidableEq, Repr

/-- One catalog row, per the columns the engine reads. -/
structure POI where
  name : String
  category : String
  district : String
  region : String
  popularity : PopVal
  lat : Option ℚ := none
  lon : Option ℚ := none
deriving DecidableEq, Repr

/-- Models the derived column name_lower added in database.py. -/
def nameLower (p : POI) : String := lowerStr p.name

/-- Models the derived column district_lower added in database.py. -/
def districtLower (p : POI) : String := lowerStr p.district

/-- Models the derived column region_lower added in database.py. -/
def regionLower (p : POI) : String := lowerStr p.region

/-- A DataFrame row: the pandas index label paired with the record.
Filtering keeps labels, so the label identifies the row across pools. -/
abbrev Row := ℕ × POI

/-- A default row, only used to totalise list indexing that the guarded
callers never reach with an out-of-range index. -/
def dummyRow : Row := (0, ⟨"", "", "", "", PopVal.real 1, none, none⟩)

-- ===================================================================
-- Selector helpers (multilevel.py weighted_sample, recommender.py
-- diversified_sample)
-- ===================================================================

/-- The numeric value of a popularity cell, zero for non-numeric cells;
only consulted where the cell is known numeric. -/
def popQ : PopVal → ℚ
  | .real q => q
  | _ => 0

/-- True when astype(float) succeeds on the cell and the resulting weight
is usable by np.random.choice (finite and non-negative). -/
def validW : PopVal → Bool
  | .real q => decide (0 ≤ q)
  | _ => false

/-- A strictly positive popularity cell: a positive real (equivalently, a
cell whose weight is a non-zero probability entry). -/
def posPop : PopVal → Bool
  | .real q => decide (0 < q)
  | _ => false

/-- Number of non-zero entries of the weight vector of a pool. -/
def posCount (df : List Row) : ℕ :=
  (df.filter (fun r => posPop r.2.popularity)).length

/-- The condition under which the sampling call in weighted_sample runs
without raising, for a draw of size top_k with replace set to false:
astype(float) must succeed on every cell (no text cell, no NaN weight),
the weights must be non-negative, the vector must normalise (for
non-negative entries the sum is positive exactly when some entry is),
and np.random.choice further requires at least top_k non-zero entries
(otherwise it raises that p has fewer non-zero entries than size).  The
normalisation requirement stands even for a draw of size zero, hence the
max with one. -/
def wsOk (df : List Row) (top_k : ℕ) : Bool :=
  df.all (fun r => validW r.2.popularity) &&
    decide (max top_k 1 ≤ posCount df)

/-- Models np.random.choice with replace set to false: n draws, each
removing the drawn row from the pool.  The oracle chooses the position. -/
def drawNoReplace (pick : ℕ → ℕ) : ℕ → ℕ → List Row → List Row
  | 0, _, _ => []
  | n + 1, r, pool =>
    if pool.isEmpty then []
    else
      let i := pick r % pool.length
      pool.getD i dummyRow :: drawNoReplace pick n (r + 1) (pool.eraseIdx i)

/-- Models weighted_sample of multilevel.py.  With at most top_k rows the
whole frame is returned; otherwise popularity is converted with
astype(float) and top_k rows are drawn without replacement.  A result of
none models the ValueError raised by astype or np.random.choice. -/
def weighted_sample (pick : ℕ → ℕ) (df : List Row) (top_k : ℕ) : Option (List Row) :=
  if df.length ≤ top_k then some df
  else if wsOk df top_k then some (drawNoReplace pick top_k 0 df)
  else none

/-- Models pd.to_numeric with coercion followed by fillna with 1.0: text
and missing cells become weight one. -/
def toNumericFill1 : PopVal → ℚ
  | .real q => q
  | _ => 1

/-- The condition under which one sampling round of diversified_sample
runs without raising: the coerced weights are non-negative and normalise
(some weight positive, equivalently a positive sum). -/
def roundOk (pool : List Row) : Bool :=
  pool.all (fun r => decide (0 ≤ toNumericFill1 r.2.popularity)) &&
    pool.any (fun r => decide (0 < toNumericFill1 r.2.popularity))

/-- The round loop of diversified_sample: each round restricts the pool to
categories not yet used, resets to the full frame when that is empty, and
draws one row; only the category of the drawn row is recorded. -/
def divRounds (pick : ℕ → ℕ) (df : List Row) : ℕ → ℕ → List String → Option (List Row)
  | 0, _, _ => some []
  | n + 1, r, used =>
    let rem0 := df.filter (fun x => !(used.contains x.2.category))
    let rem := if rem0.isEmpty then df else rem0
    if roundOk rem then
      let row := rem.getD (pick r % rem.length) dummyRow
      (divRounds pick df n (r + 1) (row.2.category :: used)).map (row :: ·)
    else none

/-- Models diversified_sample of recommender.py. -/
def diversified_sample (pick : ℕ → ℕ) (df : List Row) (top_k : ℕ) : Option (List Row) :=
  if df.isEmpty then some []
  else if df.length ≤ top_k then some df
  else divRounds pick df top_k 0 []

-- ===================================================================
-- Category tables (prompt_parser.py, recommender.py)
-- ===================================================================

/-- The phrase table of prompt_parser.py, in source order. -/
def CATEGORY_KEYWORDS : List (String × String) :=
  [("food", "food"), ("eat", "food"), ("dinner", "food"), ("lunch", "food"),
   ("breakfast", "food"), ("supper", "food"), ("restaurant", "food"),
   ("restaurants", "food"), ("hawker", "food"), ("local food", "food"),
   ("street food", "food"),
   ("cafe", "cafe"), ("cafes", "cafe"), ("coffee", "cafe"), ("brunch", "cafe"),
   ("tea", "cafe"),
   ("shop", "shopping"), ("shopping", "shopping"), ("mall", "shopping"),
   ("malls", "shopping"), ("boutique", "shopping"), ("buy clothes", "shopping"),
   ("park", "nature"), ("parks", "nature"), ("hike", "nature"),
   ("hiking", "nature"), ("nature", "nature"), ("garden", "nature"),
   ("gardens", "nature"), ("zoo", "nature"), ("river", "nature"),
   ("beach", "nature"),
   ("museum", "culture"), ("museums", "culture"), ("gallery", "culture"),
   ("art", "culture"), ("temple", "culture"), ("heritage", "culture"),
   ("history", "culture"),
   ("fun things", "activities"), ("things to do", "activities"),
   ("activities", "activities"), ("date ideas", "activities"),
   ("romantic", "activities"), ("axe throwing", "activities"),
   ("escape room", "activities"), ("arcade", "activities"),
   ("bowling", "activities"), ("indoor playground", "activities"),
   ("bar", "nightlife"), ("bars", "nightlife"), ("club", "nightlife"),
   ("clubs", "nightlife"), ("drinks", "nightlife"), ("cocktails", "nightlife")]

/-- The abstract-to-concrete category mapping of recommender.py; the
default branch models dict get with an empty default. -/
def CATEGORY_MAP : String → List String
  | "food" => ["restaurant", "hawker", "eatery", "bistro"]
  | "cafe" => ["cafe", "coffee", "dessert_cafe", "tea_house"]
  | "shopping" => ["shopping_mall", "market", "boutique"]
  | "nature" => ["park", "garden", "nature_reserve", "zoo", "beach"]
  | "culture" => ["museum", "gallery", "temple", "heritage"]
  | "activities" =>
    ["activity_center", "sports_center", "arcade", "escape_room",
     "axe_throwing", "indoor_playground", "theme_park", "attraction"]
  | "nightlife" => ["bar", "club", "lounge"]
  | _ => []

/-- The boring exclusion set of recommender.py (a Python set; only
membership is used). -/
def BORING_CATEGORIES : List String :=
  ["supermarket", "grocery", "atm", "convenience", "clinic", "bank",
   "office", "service", "pharmacy"]

/-- Models filter_exploration_df of recommender.py.  The category column
always exists in the model, so the early return for a missing column is
not represented. -/
def filter_exploration_df (df : List Row) : List Row :=
  df.filter (fun r => !(BORING_CATEGORIES.contains r.2.category))

-- ===================================================================
-- Location extraction (prompt_parser.py)
-- ===================================================================

/-- The location dictionaries built by extract_location; absent keys are
none.  The level field carries the location_level string of the source. -/
structure LocationInfo where
  location_name : String
  location_level : String
  lat : Option ℚ := none
  lon : Option ℚ := none
  district : Option String := none
  region : Option String := none
deriving DecidableEq, Repr

/-- The candidate scopes one catalog row contributes, in source order:
POI name, then district, then region, each by substring test against the
normalised query.  The lowered columns are always strings in the model,
so the isinstance guards of the source always pass. -/
def rowMatches (q : String) (p : POI) : List LocationInfo :=
  (if strIn (nameLower p) q then
    [{ location_name := p.name, location_level := "poi", lat := p.lat,
       lon := p.lon, district := some p.district, region := some p.region }]
   else []) ++
  (if strIn (districtLower p) q then
    [{ location_name := p.district, location_level := "district",
       region := some p.region }]
   else []) ++
  (if strIn (regionLower p) q then
    [{ location_name := p.region, location_level := "region" }]
   else [])

/-- Models the stable descending sort by priority (poi 3, district 2,
region 1) followed by taking the first element: the first poi match if
any, else the first district match, else the first match. -/
def pickBest (ms : List LocationInfo) : Option LocationInfo :=
  match ms.find? (fun m => m.location_level == "poi") with
  | some m => some m
  | none =>
    match ms.find? (fun m => m.location_level == "district") with
    | some m => some m
    | none => ms.head?

/-- The fuzzy district test of extract_location: the district inside the
query, the query inside the district, or any non-empty query token inside
the district name. -/
def fuzzyHit (q d : String) : Bool :=
  strIn d q || strIn q d ||
    (splitWs q).any (fun tok => !tok.isEmpty && strIn tok d)

/-- The region looked up for a fuzzy district: the region of the first
catalog row whose lowered district equals it (unique keeps first
occurrence; regions are strings in the model, so dropna is the
identity). -/
def fuzzyRegion (catalog : List POI) (d : String) : Option String :=
  (catalog.find? (fun p => districtLower p == d)).map (·.region)

/-- The compass fallback table of extract_location, in source order. -/
def REGION_KEYWORDS : List (String × String) :=
  [("east", "EAST"), ("west", "WEST"), ("north", "NORTH"),
   ("south", "SOUTH"), ("central", "CENTRAL")]

/-- Models extract_location of prompt_parser.py. -/
def extract_location (catalog : List POI) (query : String) : Option LocationInfo :=
  let q := normalise query
  if strIn "singapore" q then
    some { location_name := "Singapore", location_level := "city" }
  else
    match pickBest ((catalog.map (rowMatches q)).flatten) with
    | some m => some m
    | none =>
      match (sortedUnique (catalog.map districtLower)).find? (fuzzyHit q) with
      | some d =>
        some { location_name := upperStr d, location_level := "district",
               region := fuzzyRegion catalog d }
      | none =>
        match REGION_KEYWORDS.find? (fun kv => reWordSearch kv.1 q) with
        | some kv =>
          some { location_name := kv.2, location_level := "region" }
        | none => none

/-- Models extract_categories of prompt_parser.py: all matching phrases
contribute, the broad activity phrasing adds activities, and the
resulting set is returned sorted. -/
def extract_categories (query : String) : List String :=
  let q := normalise query
  let found := (CATEGORY_KEYWORDS.filter (fun kv => strIn kv.1 q)).map (·.2)
  let found :=
    if strIn "things to do" q || strIn "what to do" q || strIn "fun" q then
      "activities" :: found
    else found
  sortedUnique found

/-- Models the dictionary returned by parse_query. -/
structure Parsed where
  raw_query : String
  location : Option LocationInfo
  categories : List String
deriving DecidableEq, Repr

/-- Models parse_query of prompt_parser.py. -/
def parse_query (catalog : List POI) (query : String) : Parsed :=
  { raw_query := query, location := extract_location catalog query,
    categories := extract_categories query }

-- ===================================================================
-- Explainer (explain.py)
-- ===================================================================

/-- How Python string interpolation renders an optional string: the value
itself, or the word None. -/
def optDisplay : Option String → String
  | some s => s
  | none => "None"

/-- Models explain_level of explain.py; the parsed argument of the source
is never read, so it is not a parameter of the model. -/
def explain_level (location : Option LocationInfo) (level : String) : String :=
  match location with
  | none =>
    "No specific location detected — showing recommendations across Singapore."
  | some loc =>
    if level == "region" then
      "Your query referenced the region \x27" ++ loc.location_name ++ "\x27."
    else if level == "district" then
      "Your query referenced the district \x27" ++ loc.location_name ++ "\x27."
    else if level == "district_fallback" then
      "Too few POIs found in district \x27" ++ loc.location_name ++
        "\x27, so results were expanded to the region \x27" ++
        optDisplay loc.region ++ "\x27."
    else if level == "poi" then
      "You mentioned a specific POI (\x27" ++ loc.location_name ++
        "\x27), so showing nearby places in the same district."
    else if level == "city" then
      "Showing recommendations across Singapore."
    else "General recommendations."

/-- Models explain_categories of explain.py. -/
def explain_categories (categories : List String) : String :=
  if categories.isEmpty then
    "No specific intent detected — showing popular or relevant places."
  else
    "These places match your interests: " ++
      String.intercalate ", " categories ++ "."

-- ===================================================================
-- Multi-level recommender (multilevel.py)
-- ===================================================================

/-- Key comparison for the popularity sort: true when the key of the
first cell is at most the key of the second, with non-numeric cells
below every number (pandas places NaN last in a descending sort). -/
def popLeKey : PopVal → PopVal → Bool
  | .real p, .real q => decide (p ≤ q)
  | .real _, _ => false
  | _, _ => true

/-- Descending popularity comparison on rows. -/
def popDescB (a b : Row) : Bool := popLeKey b.2.popularity a.2.popularity

/-- Descending popularity order as a relation, for the sort. -/
def popDesc (a b : Row) : Prop := popDescB a b = true

instance : DecidableRel popDesc := fun a b =>
  inferInstanceAs (Decidable (popDescB a b = true))

/-- Models df.sort_values by popularity, descending. -/
def sortByPop (df : List Row) : List Row := List.insertionSort popDesc df

/-- Step 1 of multilevel_recommend: the category filter.  With detected
categories the catalog is restricted to the concrete labels they map to;
otherwise the whole catalog is kept (exploration mode).  Note that the
source does not call filter_exploration_df here. -/
def interestDf (catalog : List POI) (categories : List String) : List Row :=
  if !categories.isEmpty then
    let allowed := (categories.map CATEGORY_MAP).flatten
    catalog.enum.filter (fun r => allowed.contains r.2.category)
  else catalog.enum

/-- The frame multilevel_recommend works on after its step 1: category
filtered, then sorted by popularity descending (the popularity column
always exists in the model). -/
def stepDf (catalog : List POI) (query : String) : List Row :=
  sortByPop (interestDf catalog (extract_categories query))

/-- Models group_by_region of multilevel.py; none models an exception
escaping from weighted_sample. -/
def group_by_region (pick : ℕ → ℕ) (df : List Row) (top_k : ℕ) :
    Option (List (String × List Row)) :=
  (sortedUnique (df.map (fun r => r.2.region))).mapM
    (fun reg =>
      (weighted_sample pick (df.filter (fun r => r.2.region == reg)) top_k).map
        (fun l => (reg, l)))

/-- Models group_by_district of multilevel.py. -/
def group_by_district (pick : ℕ → ℕ) (df : List Row) (top_k : ℕ) :
    Option (List (String × List Row)) :=
  (sortedUnique (df.map (fun r => r.2.district))).mapM
    (fun d =>
      (weighted_sample pick (df.filter (fun r => r.2.district == d)) top_k).map
        (fun l => (d, l)))

/-- The result envelopes of multilevel_recommend, one constructor per
return statement; the per item explanation list of the source is a
positional projection of the rows and is not represented.  The error
constructor is the final fallback return. -/
inductive Envelope where
  | city (regions : List (String × List Row))
      (level_reason category_reason : String) (parsed : Parsed)
  | region (name : String) (districts : List (String × List Row))
      (level_reason category_reason : String) (parsed : Parsed)
  | districtFallback (district : String) (region : Option String)
      (results : List Row) (level_reason category_reason : String)
      (parsed : Parsed)
  | district (name : String) (results : List Row)
      (level_reason category_reason : String) (parsed : Parsed)
  | poi (name : String) (nearby : List Row)
      (level_reason category_reason : String) (parsed : Parsed)
  | error (parsed : Parsed)
deriving DecidableEq, Repr

/-- The value at the level key of the envelope; the error envelope has no
level key. -/
def Envelope.level : Envelope → Option String
  | .city .. => some "city"
  | .region .. => some "region"
  | .districtFallback .. => some "district_fallback"
  | .district .. => some "district"
  | .poi .. => some "poi"
  | .error _ => none

/-- Every POI row carried in the envelope (grouped envelopes flattened). -/
def Envelope.resultRows : Envelope → List Row
  | .city gs _ _ _ => (gs.map (·.2)).flatten
  | .region _ gs _ _ _ => (gs.map (·.2)).flatten
  | .districtFallback _ _ res _ _ _ => res
  | .district _ res _ _ _ => res
  | .poi _ res _ _ _ => res
  | .error _ => []

/-- CASE B of multilevel_recommend: region level. -/
def caseRegion (pick : ℕ → ℕ) (parsed : Parsed) (loc : LocationInfo)
    (df : List Row) (top_k : ℕ) : Option Envelope :=
  let loc_name := lowerStr loc.location_name
  let region_df := df.filter (fun r => lowerStr r.2.region == loc_name)
  (group_by_district pick region_df top_k).map
    (fun gs =>
      Envelope.region loc.location_name gs (explain_level (some loc) "region")
        (explain_categories parsed.categories) parsed)

/-- CASE C of multilevel_recommend: district level with the fewer than
top_k fallback to the region of the location (comparing the region column
with the region value of the location; a missing region value matches no
row, as a pandas comparison with None does). -/
def caseDistrict (pick : ℕ → ℕ) (parsed : Parsed) (loc : LocationInfo)
    (df : List Row) (top_k : ℕ) : Option Envelope :=
  let loc_name := lowerStr loc.location_name
  let district_df := df.filter (fun r => lowerStr r.2.district == loc_name)
  if district_df.length < top_k then
    let region_name := loc.region
    let region_df := df.filter (fun r => some r.2.region == region_name)
    (weighted_sample pick region_df top_k).map
      (fun res =>
        Envelope.districtFallback loc.location_name region_name res
          (explain_level (some loc) "district_fallback")
          (explain_categories parsed.categories) parsed)
  else
    (weighted_sample pick district_df top_k).map
      (fun res =>
        Envelope.district loc.location_name res
          (explain_level (some loc) "district")
          (explain_categories parsed.categories) parsed)

/-- CASE D of multilevel_recommend: POI level, recommending within the
district of the matched POI (that key is always present on a poi match;
the default only totalises the model). -/
def casePoi (pick : ℕ → ℕ) (parsed : Parsed) (loc : LocationInfo)
    (df : List Row) (top_k : ℕ) : Option Envelope :=
  let district_name := loc.district.getD ""
  let district_df :=
    df.filter (fun r => lowerStr r.2.district == lowerStr district_name)
  (weighted_sample pick district_df top_k).map
    (fun res =>
      Envelope.poi loc.location_name res (explain_level (some loc) "poi")
        (explain_categories parsed.categories) parsed)

/-- Models multilevel_recommend of multilevel.py.  The location levels
with a branch are none (city output), region, district and poi; any other
level value reaches the final error return. -/
def multilevel_recommend (pick : ℕ → ℕ) (catalog : List POI) (query : String)
    (top_k : ℕ) : Option Envelope :=
  let parsed := parse_query catalog query
  let df := stepDf catalog query
  match parsed.location with
  | none =>
    (group_by_region pick df top_k).map
      (fun gs =>
        Envelope.city gs (explain_level none "city")
          (explain_categories parsed.categories) parsed)
  | some loc =>
    if loc.location_level == "region" then caseRegion pick parsed loc df top_k
    else if loc.location_level == "district" then
      caseDistrict pick parsed loc df top_k
    else if loc.location_level == "poi" then casePoi pick parsed loc df top_k
    else some (Envelope.error parsed)

-- ===================================================================
-- Concrete data for witnesses and counterexamples
-- ===================================================================

/-- The constant pick oracle choosing position zero. -/
def pick0 : ℕ → ℕ := fun _ => 0

/-- Small test catalog: one Bedok row and two Tampines rows, all in the
EAST region, with distinct positive popularity. -/
def poiA : POI :=
  { name := "Bedok Library", category := "museum", district := "Bedok",
    region := "EAST", popularity := PopVal.real 3 }

def poiB : POI :=
  { name := "Tampines Hub", category := "sports_center",
    district := "Tampines", region := "EAST", popularity := PopVal.real 5 }

def poiC : POI :=
  { name := "Changi Jewel", category := "shopping_mall",
    district := "Tampines", region := "EAST", popularity := PopVal.real 4 }

def catA : List POI := [poiA, poiB, poiC]

/-- The district scope the parser resolves for the query bedok on catA. -/
def locBedok : LocationInfo :=
  { location_name := "Bedok", location_level := "district",
    region := some "EAST" }

/-- One-row catalog whose only POI is a restaurant in the EAST region. -/
def poiR : POI :=
  { name := "Bistro One", category := "restaurant", district := "Bedok",
    region := "EAST", popularity := PopVal.real 3 }

def catB : List POI := [poiR]

/-- One-row catalog whose only POI has a boring category. -/
def poiZ : POI :=
  { name := "Corner Cash Point", category := "atm", district := "Bedok",
    region := "EAST", popularity := PopVal.real 2 }

def catC : List POI := [poiZ]

/-- Three rows of one shared category, equal weight. -/
def rowA : Row :=
  (0, { name := "a", category := "cafe", district := "d", region := "r",
        popularity := PopVal.real 1 })

def rowB : Row :=
  (1, { name := "b", category := "cafe", district := "d", region := "r",
        popularity := PopVal.real 1 })

def rowC : Row :=
  (2, { name := "c", category := "cafe", district := "d", region := "r",
        popularity := PopVal.real 1 })

def rowsCafe : List Row := [rowA, rowB, rowC]

/-- A pool with one text popularity cell and one numeric cell. -/
def rowBad0 : Row :=
  (0, { name := "a", category := "cafe", district := "d", region := "r",
        popularity := PopVal.text })

def rowBad1 : Row :=
  (1, { name := "b", category := "bar", district := "d", region := "r",
        popularity := PopVal.real 2 })

def rowsBad : List Row := [rowBad0, rowBad1]

/-- A pool of spec-legal rows (non-negative real popularity) with only
one non-zero weight entry. -/
def rowZ0 : Row :=
  (0, { name := "a", category := "cafe", district := "d", region := "r",
        popularity := PopVal.real 1 })

def rowZ1 : Row :=
  (1, { name := "b", category := "park", district := "d", region := "r",
        popularity := PopVal.real 0 })

def rowZ2 : Row :=
  (2, { name := "c", category := "bar", district := "d", region := "r",
        popularity := PopVal.real 0 })

def rowsZero : List Row := [rowZ0, rowZ1, rowZ2]

-- ===================================================================
-- Helper lemmas about the samplers
-- ===================================================================

theorem getD_mem_of_lt (l : List Row) (i : ℕ) (h : i < l.length) :
    l.getD i dummyRow ∈ l := by
  rw [List.getD_eq_getElem?_getD, List.getElem?_eq_getElem h]
  exact List.getElem_mem h

theorem drawNoReplace_subset (pick : ℕ → ℕ) :
    ∀ (n r : ℕ) (pool : List Row), ∀ x ∈ drawNoReplace pick n r pool, x ∈ pool := by
  intro n
  induction n with
  | zero => intro r pool x hx; simp [drawNoReplace] at hx
  | succ n ih =>
    intro r pool x hx
    unfold drawNoReplace at hx
    by_cases hp : pool.isEmpty
    · rw [if_pos hp] at hx; simp at hx
    · rw [if_neg hp] at hx
      have h0 : 0 < pool.length := by
        cases pool with
        | nil => simp at hp
        | cons a t => simp
      rcases List.mem_cons.mp hx with h | h
      · rw [h]; exact getD_mem_of_lt _ _ (Nat.mod_lt _ h0)
      · exact (List.eraseIdx_sublist pool _).subset (ih _ _ x h)

theorem drawNoReplace_length (pick : ℕ → ℕ) :
    ∀ (n r : ℕ) (pool : List Row), n ≤ pool.length →
      (drawNoReplace pick n r pool).length = n := by
  intro n
  induction n with
  | zero => intro r pool _; rfl
  | succ n ih =>
    intro r pool h
    have h0 : 0 < pool.length := lt_of_lt_of_le (Nat.succ_pos n) h
    have hp : ¬ pool.isEmpty = true := by
      cases pool with
      | nil => simp at h0
      | cons a t => simp
    unfold drawNoReplace
    rw [if_neg hp]
    have hlen : (pool.eraseIdx (pick r % pool.length)).length = pool.length - 1 := by
      rw [List.length_eraseIdx, if_pos (Nat.mod_lt _ h0)]
    simp only [List.length_cons]
    rw [ih (r + 1) _ (by omega)]

theorem weighted_sample_mem {pick : ℕ → ℕ} {df l : List Row} {k : ℕ}
    (h : weighted_sample pick df k = some l) : ∀ x ∈ l, x ∈ df := by
  unfold weighted_sample at h
  by_cases hle : df.length ≤ k
  · rw [if_pos hle] at h
    cases h
    exact fun x hx => hx
  · rw [if_neg hle] at h
    by_cases hok : wsOk df k = true
    · rw [if_pos hok] at h
      cases h
      exact drawNoReplace_subset pick k 0 df
    · rw [if_neg hok] at h
      cases h

theorem validW_of_pos {v : PopVal} (h : posPop v = true) : validW v = true := by
  cases v with
  | real q =>
    simp only [posPop, decide_eq_true_eq] at h
    simp only [validW, decide_eq_true_eq]
    exact le_of_lt h
  | text => simp [posPop] at h
  | missing => simp [posPop] at h

theorem popQ_pos {v : PopVal} (h : posPop v = true) : 0 < popQ v := by
  cases v with
  | real q => simpa [posPop, popQ] using h
  | text => simp [posPop] at h
  | missing => simp [posPop] at h

theorem toNumericFill1_pos {v : PopVal} (h : posPop v = true) :
    0 < toNumericFill1 v := by
  cases v with
  | real q => simpa [posPop, toNumericFill1] using h
  | text => simp [posPop] at h
  | missing => simp [posPop] at h

theorem posCount_eq_length {df : List Row}
    (h : ∀ r ∈ df, posPop r.2.popularity = true) : posCount df = df.length := by
  unfold posCount
  rw [List.filter_eq_self.mpr h]

theorem wsOk_of_posCount {df : List Row} {k : ℕ}
    (hall : ∀ r ∈ df, validW r.2.popularity = true)
    (hcnt : max k 1 ≤ posCount df) : wsOk df k = true := by
  unfold wsOk
  rw [Bool.and_eq_true]
  exact ⟨List.all_eq_true.mpr hall, decide_eq_true hcnt⟩

theorem wsOk_of_pos {df : List Row} {k : ℕ} (hne : df ≠ [])
    (h : ∀ r ∈ df, posPop r.2.popularity = true) (hk : k ≤ df.length) :
    wsOk df k = true := by
  refine wsOk_of_posCount (fun r hr => validW_of_pos (h r hr)) ?_
  rw [posCount_eq_length h]
  have hlen : 1 ≤ df.length := by
    cases df with
    | nil => exact absurd rfl hne
    | cons a t => simp
  omega

theorem roundOk_of_pos {pool : List Row} (hne : pool ≠ [])
    (h : ∀ r ∈ pool, posPop r.2.popularity = true) : roundOk pool = true := by
  unfold roundOk
  rw [Bool.and_eq_true]
  constructor
  · rw [List.all_eq_true]
    intro r hr
    rw [decide_eq_true_eq]
    exact le_of_lt (toNumericFill1_pos (h r hr))
  · rw [List.any_eq_true]
    cases pool with
    | nil => exact absurd rfl hne
    | cons a t =>
      refine ⟨a, List.mem_cons_self a t, ?_⟩
      rw [decide_eq_true_eq]
      exact toNumericFill1_pos (h a (List.mem_cons_self a t))

theorem divRounds_total (pick : ℕ → ℕ) (df : List Row) (hne : df ≠ [])
    (hpos : ∀ r ∈ df, posPop r.2.popularity = true) :
    ∀ (n r : ℕ) (used : List String),
      ∃ l, divRounds pick df n r used = some l ∧ l.length = n := by
  intro n
  induction n with
  | zero => intro r used; exact ⟨[], rfl, rfl⟩
  | succ n ih =>
    intro r used
    simp only [divRounds]
    by_cases h0 : (df.filter (fun x => !(used.contains x.2.category))).isEmpty = true
    · rw [if_pos h0, if_pos (roundOk_of_pos hne hpos)]
      rcases ih (r + 1)
          ((df.getD (pick r % df.length) dummyRow).2.category :: used) with
        ⟨l, hl, hlen⟩
      exact ⟨_, by rw [hl]; rfl, by simp [hlen]⟩
    · have hsub : ∀ x ∈ df.filter (fun x => !(used.contains x.2.category)), x ∈ df :=
        fun x hx => (List.mem_filter.mp hx).1
      have hne0 : df.filter (fun x => !(used.contains x.2.category)) ≠ [] := by
        intro hc
        rw [hc] at h0
        simp at h0
      rw [if_neg h0, if_pos (roundOk_of_pos hne0 (fun x hx => hpos x (hsub x hx)))]
      rcases ih (r + 1)
          (((df.filter (fun x => !(used.contains x.2.category))).getD
              (pick r % (df.filter (fun x => !(used.contains x.2.category))).length)
              dummyRow).2.category :: used) with
        ⟨l, hl, hlen⟩
      exact ⟨_, by rw [hl]; rfl, by simp [hlen]⟩

-- ===================================================================
-- Claim theorems
-- ===================================================================

/-- C3 counterexample: the claim fails as stated.  On a pool of three
spec-legal rows (non-negative real popularity) of which only one weight
is non-zero, a draw of k = 2 makes np.random.choice raise (p has fewer
non-zero entries than size), modelled none, instead of returning
min(3, 2) = 2 rows. -/
theorem selector_bounded_cex :
    weighted_sample pick0 rowsZero 2 = none ∧
    rowsZero.length = 3 ∧
    (∀ r ∈ rowsZero, validW r.2.popularity = true) ∧
    posCount rowsZero = 1 :=
  ⟨by decide, by decide, by decide, by decide⟩

/-- C3 amended: the bound holds exactly where the numpy weighting is
defined.  A pool of at most k rows is returned whole by both variants
(the empty pool yields the empty list, never an error); on a larger
pool, the weighted variant returns exactly k rows provided every
popularity cell is a usable weight (a non-negative real) and at least k
weights are non-zero, and the diversified variant returns exactly k rows
provided every popularity cell is a positive real. -/
theorem selector_bounded_amended (pick : ℕ → ℕ) (df : List Row) (k : ℕ)
    (hk : 1 ≤ k) :
    ((∀ r ∈ df, validW r.2.popularity = true) → k ≤ posCount df →
      ∃ l, weighted_sample pick df k = some l ∧ l.length = min df.length k) ∧
    ((∀ r ∈ df, posPop r.2.popularity = true) →
      ∃ l, diversified_sample pick df k = some l ∧ l.length = min df.length k) ∧
    weighted_sample pick [] k = some [] ∧
    diversified_sample pick [] k = some [] := by
  refine ⟨?_, ?_, ?_, ?_⟩
  · intro hall hcnt
    unfold weighted_sample
    by_cases hle : df.length ≤ k
    · rw [if_pos hle]
      exact ⟨df, rfl, (Nat.min_eq_left hle).symm⟩
    · have hlt : k < df.length := lt_of_not_le hle
      rw [if_neg hle, if_pos (wsOk_of_posCount hall (by omega))]
      refine ⟨_, rfl, ?_⟩
      rw [drawNoReplace_length pick k 0 df (le_of_lt hlt)]
      omega
  · intro hpos
    unfold diversified_sample
    by_cases hemp : df.isEmpty = true
    · have hnil : df = [] := by
        cases df with
        | nil => rfl
        | cons a t => simp at hemp
      rw [if_pos hemp]
      exact ⟨[], rfl, by rw [hnil]; simp⟩
    · rw [if_neg hemp]
      have hne : df ≠ [] := by
        intro hc
        rw [hc] at hemp
        simp at hemp
      by_cases hle : df.length ≤ k
      · rw [if_pos hle]
        exact ⟨df, rfl, (Nat.min_eq_left hle).symm⟩
      · rw [if_neg hle]
        rcases divRounds_total pick df hne hpos k 0 [] with ⟨l, hl, hlen⟩
        refine ⟨l, hl, ?_⟩
        have : ¬ df.length ≤ k := hle
        omega
  · unfold weighted_sample
    rw [if_pos (by simp)]
  · rfl

/-- Witness for the amended C3 theorem at the three-row pool and k = 2,
with both per-variant premisses discharged. -/
theorem selector_bounded_amended_witness :
    (1 ≤ 2 ∧ (∀ r ∈ rowsCafe, validW r.2.popularity = true) ∧
      2 ≤ posCount rowsCafe ∧ (∀ r ∈ rowsCafe, posPop r.2.popularity = true)) ∧
    ((∃ l, weighted_sample pick0 rowsCafe 2 = some l ∧
        l.length = min rowsCafe.length 2) ∧
     (∃ l, diversified_sample pick0 rowsCafe 2 = some l ∧
        l.length = min rowsCafe.length 2)) :=
  ⟨⟨by omega, by decide, by decide, by decide⟩,
   ⟨(selector_bounded_amended pick0 rowsCafe 2 (by omega)).1 (by decide) (by decide),
    (selector_bounded_amended pick0 rowsCafe 2 (by omega)).2.1 (by decide)⟩⟩

/-- C2: the no-duplicates claim fails on diversified_sample.  With three
rows of one shared category, k = 2 and a pick oracle always choosing
position zero (a draw numpy makes with positive probability, every
weight being equal), the category reset restores the full frame and row
zero is returned twice.  The weighted_sample variant, drawing without
replacement, does return distinct rows on the same pool. -/
theorem diversified_sample_repeats_row :
    diversified_sample pick0 rowsCafe 2 = some [rowA, rowA] ∧
    ¬ (([rowA, rowA].map Prod.fst).Nodup) ∧
    weighted_sample pick0 rowsCafe 2 = some [rowA, rowB] ∧
    (([rowA, rowB].map Prod.fst).Nodup) :=
  ⟨by decide, by decide, by decide, by decide⟩

/-- C4: the malformed-popularity claim fails on weighted_sample: a text
popularity cell makes the astype conversion raise (modelled none), while
diversified_sample coerces the same cell to weight one and returns
normally. -/
theorem weighted_sample_fails_on_text_popularity :
    weighted_sample pick0 rowsBad 1 = none ∧
    diversified_sample pick0 rowsBad 1 = some [rowBad0] :=
  ⟨by decide, by decide⟩

/-- C8 counterexample: a call with k = 0 on a non-empty pool returns the
empty list normally instead of failing loudly with a precondition
violation. -/
theorem k_zero_returns_empty_cex :
    weighted_sample pick0 rowsCafe 0 = some [] ∧ rowsCafe ≠ [] :=
  ⟨by decide, by decide⟩

/-- C8 amended: no precondition on k exists; with k = 0 the sampler
silently returns an empty selection from any pool with well-formed
weights (np.random.choice with size zero draws nothing). -/
theorem k_zero_silently_empty (pick : ℕ → ℕ) (df : List Row)
    (hpos : ∀ r ∈ df, posPop r.2.popularity = true) :
    weighted_sample pick df 0 = some [] := by
  unfold weighted_sample
  by_cases hle : df.length ≤ 0
  · rw [if_pos hle]
    have hnil : df = [] := List.length_eq_zero.mp (Nat.le_zero.mp hle)
    rw [hnil]
  · have hne : df ≠ [] := by
      intro hc
      rw [hc] at hle
      simp at hle
    rw [if_neg hle, if_pos (wsOk_of_pos hne hpos (Nat.zero_le _))]
    rfl

/-- Witness for the amended C8 theorem at the three-row pool. -/
theorem k_zero_silently_empty_witness :
    (∀ r ∈ rowsCafe, posPop r.2.popularity = true) ∧
    weighted_sample pick0 rowsCafe 0 = some [] :=
  ⟨by decide, k_zero_silently_empty pick0 rowsCafe (by decide)⟩

/-- C1: the claim fails on the code.  A query containing singapore parses
to a city-level scope dictionary, which is truthy, so the no-location
branch of multilevel_recommend does not fire; no branch matches the city
location level and the call falls through to the error envelope (a return
whose own comment says it should not occur), with no level key, no
results and no category_reason for any k. -/
theorem city_query_reaches_error_envelope :
    multilevel_recommend pick0 catA "Fun things to do in Singapore" 5 =
      some (Envelope.error
        { raw_query := "Fun things to do in Singapore",
          location :=
            some { location_name := "Singapore", location_level := "city" },
          categories := ["activities"] }) ∧
    (multilevel_recommend pick0 catA "Fun things to do in Singapore" 5).map
        Envelope.level = some none :=
  ⟨by decide, by decide⟩

/-- C5: the claim fails on the code: the exploration branch of
multilevel_recommend never calls filter_exploration_df.  On a catalog
holding one atm row, a query with no detected category and no location
yields a city envelope containing that boring-category row, although the
exploration filter would have removed it. -/
theorem exploration_keeps_boring_category :
    multilevel_recommend pick0 catC "zzz" 5 =
      some (Envelope.city [("EAST", [(0, poiZ)])]
        (explain_level none "city") (explain_categories [])
        { raw_query := "zzz", location := none, categories := [] }) ∧
    BORING_CATEGORIES.contains poiZ.category = true ∧
    filter_exploration_df catC.enum = [] :=
  ⟨by decide, by decide, by decide⟩

/-- C9: any query whose normalised text contains singapore resolves to
the City scope immediately, regardless of the catalog and hence of any
other place-name substrings present in the query. -/
theorem singapore_city_priority (catalog : List POI) (query : String)
    (h : strIn "singapore" (normalise query) = true) :
    extract_location catalog query =
      some { location_name := "Singapore", location_level := "city" } := by
  simp only [extract_location]
  rw [if_pos h]

/-- Witness for C9 on a query that also contains a district name and a
POI-name fragment of the test catalog. -/
theorem singapore_city_priority_witness :
    strIn "singapore" (normalise "Museums in Singapore near Bedok") = true ∧
    extract_location catA "Museums in Singapore near Bedok" =
      some { location_name := "Singapore", location_level := "city" } :=
  ⟨by decide,
   singapore_city_priority catA "Museums in Singapore near Bedok" (by decide)⟩

theorem hasSub_nil_needle : ∀ hay : List Char, hasSub [] hay = true
  | [] => rfl
  | _ :: _ => rfl

theorem strIn_nil_needle (s : String) : strIn "" s = true :=
  hasSub_nil_needle s.data

theorem strIn_empty_hay {s : String} (h : s ≠ "") : strIn s "" = false := by
  unfold strIn
  cases hd : s.data with
  | nil => exact absurd (String.ext hd) h
  | cons c t => rfl

/-- C10: a query that normalises to the empty string does not yield a
missing scope.  Provided every lowered text field of the catalog is
non-empty (true of the loaded frame, where the fields come from astype
str), the direct scan finds no match, the empty query is a substring of
every district name, and the fuzzy fallback returns a district scope
naming the alphabetically first district of the catalog, uppercased,
with its region looked up from the catalog. -/
theorem empty_query_first_district (catalog : List POI) (query : String)
    (hq : normalise query = "")
    (hne : catalog ≠ [])
    (hfields : ∀ p ∈ catalog,
      nameLower p ≠ "" ∧ districtLower p ≠ "" ∧ regionLower p ≠ "") :
    ∃ d rest, sortedUnique (catalog.map districtLower) = d :: rest ∧
      extract_location catalog query =
        some { location_name := upperStr d, location_level := "district",
               region := fuzzyRegion catalog d } ∧
      d ∈ catalog.map districtLower ∧
      (∀ p ∈ catalog, d ≤ districtLower p) := by
  have hperm :=
    List.perm_insertionSort (α := String) (· ≤ ·) (catalog.map districtLower).dedup
  have hudne : sortedUnique (catalog.map districtLower) ≠ [] := by
    intro hc
    unfold sortedUnique sortedStrs at hc
    rw [hc] at hperm
    have hdnil := hperm.symm.eq_nil
    rw [List.dedup_eq_nil, List.map_eq_nil_iff] at hdnil
    exact hne hdnil
  obtain ⟨d, rest, hcons⟩ :
      ∃ d rest, sortedUnique (catalog.map districtLower) = d :: rest := by
    cases h : sortedUnique (catalog.map districtLower) with
    | nil => exact absurd h hudne
    | cons a t => exact ⟨a, t, rfl⟩
  have hfuzzy : fuzzyHit (normalise query) d = true := by
    rw [hq]
    unfold fuzzyHit
    rw [strIn_nil_needle]
    simp
  have hrm : ∀ p ∈ catalog, rowMatches (normalise query) p = [] := by
    intro p hp
    rw [hq]
    unfold rowMatches
    rcases hfields p hp with ⟨h1, h2, h3⟩
    rw [strIn_empty_hay h1, strIn_empty_hay h2, strIn_empty_hay h3]
    simp
  have hflat : ((catalog.map (rowMatches (normalise query))).flatten) = [] := by
    rw [List.flatten_eq_nil_iff]
    intro l hl
    rcases List.mem_map.mp hl with ⟨p, hp, rfl⟩
    exact hrm p hp
  refine ⟨d, rest, hcons, ?_, ?_, ?_⟩
  · simp only [extract_location]
    rw [hq]
    rw [show strIn "singapore" "" = false from rfl]
    rw [if_neg (by simp)]
    rw [show normalise query = "" from hq] at hflat
    rw [hflat]
    simp only [pickBest, List.find?]
    rw [hcons, List.find?_cons_of_pos rest (by rw [hq] at hfuzzy; exact hfuzzy)]
    rfl
  · have hd : d ∈ sortedUnique (catalog.map districtLower) := by
      rw [hcons]
      exact List.mem_cons_self d rest
    unfold sortedUnique sortedStrs at hd
    exact List.mem_dedup.mp (hperm.mem_iff.mp hd)
  · intro p hp
    have hsorted :=
      List.sorted_insertionSort (α := String) (· ≤ ·) (catalog.map districtLower).dedup
    unfold sortedUnique sortedStrs at hcons
    rw [hcons] at hsorted
    have hmem : districtLower p ∈
        List.insertionSort (· ≤ ·) (catalog.map districtLower).dedup :=
      hperm.symm.mem_iff.mp (List.mem_dedup.mpr (List.mem_map_of_mem _ hp))
    rw [hcons] at hmem
    rcases List.mem_cons.mp hmem with h | h
    · rw [h]
    · exact List.rel_of_sorted_cons hsorted _ h

/-- Witness for C10: a whitespace-only query on the test catalog. -/
theorem empty_query_first_district_witness :
    (normalise "   " = "" ∧ catA ≠ [] ∧ ∀ p ∈ catA,
        nameLower p ≠ "" ∧ districtLower p ≠ "" ∧ regionLower p ≠ "") ∧
    (∃ d rest, sortedUnique (catA.map districtLower) = d :: rest ∧
      extract_location catA "   " =
        some { location_name := upperStr d, location_level := "district",
               region := fuzzyRegion catA d } ∧
      d ∈ catA.map districtLower ∧
      (∀ p ∈ catA, d ≤ districtLower p)) :=
  ⟨⟨by decide, by decide, by decide⟩,
   empty_query_first_district catA "   " (by decide) (by decide) (by decide)⟩

theorem multilevel_at_district (pick : ℕ → ℕ) (catalog : List POI)
    (query : String) (k : ℕ) (loc : LocationInfo)
    (hloc : extract_location catalog query = some loc)
    (hlev : loc.location_level = "district") :
    multilevel_recommend pick catalog query k =
      caseDistrict pick (parse_query catalog query) loc (stepDf catalog query) k := by
  have hl : (parse_query catalog query).location = some loc := hloc
  simp only [multilevel_recommend, hl, hlev]
  rw [if_neg (by decide), if_pos (by decide)]

theorem multilevel_at_region (pick : ℕ → ℕ) (catalog : List POI)
    (query : String) (k : ℕ) (loc : LocationInfo)
    (hloc : extract_location catalog query = some loc)
    (hlev : loc.location_level = "region") :
    multilevel_recommend pick catalog query k =
      caseRegion pick (parse_query catalog query) loc (stepDf catalog query) k := by
  have hl : (parse_query catalog query).location = some loc := hloc
  simp only [multilevel_recommend, hl, hlev]
  rw [if_pos (by decide)]

/-- C6: whenever the parser resolves a district scope and the
category-filtered pool holds fewer than k rows of that district, any
envelope the engine returns is the district_fallback envelope, and every
returned row comes from the pool widened to the region recorded on the
scope. -/
theorem district_sparse_gives_fallback (pick : ℕ → ℕ) (catalog : List POI)
    (query : String) (k : ℕ) (loc : LocationInfo) (e : Envelope)
    (hloc : extract_location catalog query = some loc)
    (hlev : loc.location_level = "district")
    (hfew : ((stepDf catalog query).filter
        (fun r => lowerStr r.2.district == lowerStr loc.location_name)).length < k)
    (hrun : multilevel_recommend pick catalog query k = some e) :
    e.level = some "district_fallback" ∧
      ∀ r ∈ e.resultRows,
        r ∈ (stepDf catalog query).filter
          (fun r => some r.2.region == loc.region) := by
  rw [multilevel_at_district pick catalog query k loc hloc hlev] at hrun
  simp only [caseDistrict] at hrun
  rw [if_pos hfew] at hrun
  cases hws : weighted_sample pick
      ((stepDf catalog query).filter (fun r => some r.2.region == loc.region)) k with
  | none =>
    rw [hws] at hrun
    simp at hrun
  | some res =>
    rw [hws] at hrun
    rw [Option.map_some'] at hrun
    cases hrun
    exact ⟨rfl, fun r hr => weighted_sample_mem hws r hr⟩

/-- Witness for C6: the query bedok on the test catalog, with one Bedok
row and k = 5, lands in the district_fallback envelope. -/
theorem district_sparse_gives_fallback_witness :
    (extract_location catA "bedok" = some locBedok ∧
      locBedok.location_level = "district" ∧
      ((stepDf catA "bedok").filter
        (fun r => lowerStr r.2.district == lowerStr locBedok.location_name)).length < 5) ∧
    (multilevel_recommend pick0 catA "bedok" 5).map Envelope.level =
      some (some "district_fallback") := by
  refine ⟨⟨by decide, rfl, by decide⟩, ?_⟩
  cases h : multilevel_recommend pick0 catA "bedok" 5 with
  | none => exact absurd h (by decide)
  | some e =>
    have hmain := district_sparse_gives_fallback pick0 catA "bedok" 5 locBedok e
      (by decide) rfl (by decide) h
    simp [hmain.1]

/-- C7 counterexample: a region-scope query whose region filter empties
an otherwise non-empty interest-filtered pool.  The engine reports the
region envelope with no rows at all: it does not drop the scope
constraint and select from the interest-filtered pool, refuting the
claim that an empty result only occurs when the interest filter itself
is empty. -/
theorem region_empty_no_pool_drop_cex :
    extract_location catB "restaurants in the west" =
      some { location_name := "WEST", location_level := "region" } ∧
    stepDf catB "restaurants in the west" ≠ [] ∧
    (stepDf catB "restaurants in the west").filter
      (fun r => lowerStr r.2.region == lowerStr "WEST") = [] ∧
    (multilevel_recommend pick0 catB "restaurants in the west" 5).map
        Envelope.level = some (some "region") ∧
    (multilevel_recommend pick0 catB "restaurants in the west" 5).map
        Envelope.resultRows = some [] :=
  ⟨by decide, by decide, by decide, by decide, by decide⟩

/-- C7 amended: when the region filter over the interest-filtered pool
is empty, the cascade does not widen the pool: it returns the region
envelope with an empty district map (no rows selected), keeping the
scope label, even when the interest-filtered pool is non-empty. -/
theorem region_empty_keeps_scope (pick : ℕ → ℕ) (catalog : List POI)
    (query : String) (k : ℕ) (loc : LocationInfo)
    (hloc : extract_location catalog query = some loc)
    (hlev : loc.location_level = "region")
    (hempty : (stepDf catalog query).filter
        (fun r => lowerStr r.2.region == lowerStr loc.location_name) = []) :
    multilevel_recommend pick catalog query k =
      some (Envelope.region loc.location_name []
        (explain_level (some loc) "region")
        (explain_categories (extract_categories query))
        (parse_query catalog query)) := by
  rw [multilevel_at_region pick catalog query k loc hloc hlev]
  simp only [caseRegion]
  rw [hempty]
  rfl

/-- Witness for the amended C7 theorem at the counterexample inputs. -/
theorem region_empty_keeps_scope_witness :
    (extract_location catB "restaurants in the west" =
        some { location_name := "WEST", location_level := "region" } ∧
      (stepDf catB "restaurants in the west").filter
        (fun r => lowerStr r.2.region == lowerStr "WEST") = []) ∧
    multilevel_recommend pick0 catB "restaurants in the west" 5 =
      some (Envelope.region "WEST" []
        (explain_level
          (some { location_name := "WEST", location_level := "region" }) "region")
        (explain_categories (extract_categories "restaurants in the west"))
        (parse_query catB "restaurants in the west")) :=
  ⟨⟨by decide, by decide⟩,
   region_empty_keeps_scope pick0 catB "restaurants in the west" 5
     { location_name := "WEST", location_level := "region" }
     (by decide) rfl (by decide)⟩

end SpatiaLynk
